import Mathlib

/-!
Shallow embedding of the dc1-platform orchestration core, with theorems
checking the specification's claims against the embedded code.

Each definition mirrors one Python function of the repository; external
effects (file system, S3, HTTP, clock) are passed in as explicit
environment parameters, so every function is pure and executable.
-/

namespace DC1

/-! ### Checkpoint store — `src/orchestration/failover/checkpoint.py` -/

/-- Raw checkpoint payloads are byte strings, modelled as lists of byte values. -/
abbrev Bytes := List Nat

/-- Abstract content-hash function standing for `hashlib.sha256(...).hexdigest()`.
The code only ever compares digests for equality, so the digest type is `Nat`. -/
structure HashFn where
  hash : Bytes → Nat

/-- One entry of the per-job `meta.json` index (the dict appended in
`save_checkpoint` and read back by `_load_meta`). -/
structure MetaEntry where
  num : Nat
  checksum : Nat
  nas_path : String
  s3_key : String
  size : Nat
  saved_at : Nat
deriving Repr, DecidableEq

/-- Mirror of `models.CheckpointRef`. -/
structure CheckpointRef where
  job_id : String
  checkpoint_num : Nat
  nas_path : String
  s3_key : String
  checksum_sha256 : Nat
  size_bytes : Nat
  saved_at : Nat
deriving Repr, DecidableEq

/-- Zero-padded six-digit rendering, mirror of the Python format `f"{num:06d}"`. -/
def pad6 (n : Nat) : String :=
  let s := toString n
  String.mk (List.replicate (6 - s.length) '0') ++ s

/-- Mirror of `_s3_key(job_id, num)`. -/
def s3_key_of (job_id : String) (num : Nat) : String :=
  "checkpoints/" ++ job_id ++ "/" ++ pad6 num ++ ".ckpt"

/-- Local checkpoint file path `<NAS_PATH>/<job_id>/<num:06d>.ckpt`. -/
def nas_file_of (job_id : String) (num : Nat) : String :=
  "/mnt/nas/dc1/checkpoints/" ++ job_id ++ "/" ++ pad6 num ++ ".ckpt"

/-- Python slice `l[-n:]` (note `l[-0:]` is the whole list). -/
def pyTail (l : List MetaEntry) (n : Nat) : List MetaEntry :=
  if n = 0 then l else l.drop (l.length - n)

/-- Mirror of `delete_old_checkpoints(job_id, keep_n)` restricted to its effect
on the meta index: if at most `keep_n` entries exist nothing is deleted,
otherwise only the last `keep_n` entries (`meta[-keep_n:]`) survive.
The accompanying NAS/S3 object deletions are I/O side effects outside the
index state. -/
def delete_old_checkpoints (meta : List MetaEntry) (keep_n : Nat) : List MetaEntry :=
  if meta.length ≤ keep_n then meta
  else pyTail meta keep_n

/-- Outcome of one medium's write-plus-read-back in `save_checkpoint`:
the write raises an I/O error, or the read-back bytes hash differently from
what was written (`corrupt`), or the copy commits bit-identical (`ok`). -/
inductive WriteOutcome
  | ok
  | ioError
  | corrupt
deriving DecidableEq, Repr

/-- Exception leaving the failover-module `save_checkpoint`: a NAS write
error, a NAS read-back `assert` failure, an S3 `put_object` error, or an S3
read-back `assert` failure. -/
inductive SaveErr
  | nasWriteFailed
  | nasIntegrityFailed
  | s3WriteFailed
  | s3IntegrityFailed
deriving DecidableEq, Repr

/-- Mirror of the failover-module `save_checkpoint(job_id, data, num)`.
The body writes NAS first and asserts the read-back hash, then writes S3
(a single `put_object`, no retry) and asserts its read-back hash; any
failure propagates as an exception.  Only when both media commit does it
build the `CheckpointRef`, append the meta entry and auto-prune with
`KEEP_N`.  Returns the ref together with the resulting meta index. -/
def save_checkpoint (h : HashFn) (job_id : String) (checkpoint_data : Bytes)
    (checkpoint_num : Nat) (now : Nat) (meta : List MetaEntry)
    (nas : WriteOutcome) (s3 : WriteOutcome) (keep_n : Nat) :
    Except SaveErr (CheckpointRef × List MetaEntry) :=
  let checksum := h.hash checkpoint_data
  let size := checkpoint_data.length
  let nas_file := nas_file_of job_id checkpoint_num
  match nas with
  | .ioError => .error .nasWriteFailed
  | .corrupt => .error .nasIntegrityFailed
  | .ok =>
    match s3 with
    | .ioError => .error .s3WriteFailed
    | .corrupt => .error .s3IntegrityFailed
    | .ok =>
      let key := s3_key_of job_id checkpoint_num
      let ref : CheckpointRef :=
        ⟨job_id, checkpoint_num, nas_file, key, checksum, size, now⟩
      let entry : MetaEntry := ⟨checkpoint_num, checksum, nas_file, key, size, now⟩
      .ok (ref, delete_old_checkpoints (meta ++ [entry]) keep_n)

/-- Build a `CheckpointRef` from a meta entry, as the load path does. -/
def refOfEntry (job_id : String) (e : MetaEntry) : CheckpointRef :=
  ⟨job_id, e.num, e.nas_path, e.s3_key, e.checksum, e.size, e.saved_at⟩

/-- Mirror of the failover-module `load_checkpoint(job_id, checkpoint_num)`.
`checkpoint_num = none` stands for the Python default `-1` (latest entry).
`nasRead path` is the NAS file content if the file exists; `s3Read key` is
the S3 object body, `none` standing for a `ClientError`.  The result pairs
the returned ref (or `none`) with the self-heal write performed on the NAS
copy (path and bytes), if any. -/
def load_checkpoint (h : HashFn) (job_id : String) (checkpoint_num : Option Nat)
    (meta : List MetaEntry) (nasRead : String → Option Bytes)
    (s3Read : String → Option Bytes) :
    Option CheckpointRef × Option (String × Bytes) :=
  if meta.isEmpty then (none, none)
  else
    let entry? : Option MetaEntry :=
      match checkpoint_num with
      | none => meta.getLast?
      | some n => meta.find? (fun e => e.num == n)
    match entry? with
    | none => (none, none)
    | some entry =>
      let nasHit : Bool :=
        match nasRead entry.nas_path with
        | some data => h.hash data == entry.checksum
        | none => false
      if nasHit then (some (refOfEntry job_id entry), none)
      else
        match s3Read entry.s3_key with
        | none => (none, none)
        | some data =>
          if h.hash data != entry.checksum then (none, none)
          else (some (refOfEntry job_id entry), some (entry.nas_path, data))

/-! ### Checkpoint manager — `src/orchestration/checkpoint/checkpoint_manager.py` -/

namespace Manager

/-- Mirror of `CheckpointManager.S3_RETRY_DELAYS`. -/
def S3_RETRY_DELAYS : List Nat := [1, 2, 4]

/-- Mirror of `_s3_upload_with_retry`: three attempts in order, returning the
first successful upload's size, or `none` after total failure.  `attempt i`
is the outcome of the `i`-th `upload_json` call (`none` = exception). -/
def s3_upload_with_retry (attempt : Nat → Option Nat) : Option Nat :=
  match attempt 0 with
  | some n => some n
  | none =>
    match attempt 1 with
    | some n => some n
    | none => attempt 2

/-- Mirror of `CheckpointResult` (the wall-clock `duration_ms` field is
outside the model). -/
structure CheckpointResult where
  s3_key : Option String
  local_path : Option String
  size_bytes : Nat
deriving Repr, DecidableEq

/-- Mirror of `CheckpointManager.save_checkpoint`.  `body` is the serialized
JSON payload; `ts` the UTC timestamp string.  S3 is attempted with the
retry schedule, the local atomic write succeeds iff `local_ok`; raising
`CheckpointError` (modelled as `Except.error`) exactly when both fail.
A failed medium is marked `none` in the result.  No read-back hash
verification is performed by this manager.  The second component of a
successful result is the local directory listing after the call
(`local_files` gains `ts`.json when the local write succeeded). -/
def save_checkpoint (job_id ts : String) (body : Bytes)
    (s3_attempt : Nat → Option Nat) (local_ok : Bool)
    (local_files : List String) :
    Except String (CheckpointResult × List String) :=
  let key := "checkpoints/" ++ job_id ++ "/" ++ ts ++ ".json"
  let path := ts ++ ".json"
  let s3_ok := s3_upload_with_retry s3_attempt
  if s3_ok.isNone && !local_ok then
    .error ("Both S3 and local write failed for job " ++ job_id)
  else
    .ok (⟨if s3_ok.isSome then some key else none,
          if local_ok then some path else none,
          body.length⟩,
         if local_ok then local_files ++ [path] else local_files)

/-- Largest element of a list of strings; realizes `sorted(keys)[-1]`. -/
def maxStr : List String → String
  | [] => ""
  | k :: rest =>
    let m := maxStr rest
    if rest.isEmpty then k else if k ≤ m then m else k

/-- Mirror of `CheckpointManager.load_checkpoint`: S3 is tried FIRST (list
keys, take the lexicographically last, download it); any S3 exception or an
empty key list falls back to the lexicographically last local `*.json`
file.  `s3_list = none` stands for a `list_keys` exception; `s3_download`
returns `none` on a download exception; `local_files` pairs file names with
contents.  No hash verification and no self-heal happen here. -/
def load_checkpoint (s3_list : Option (List String))
    (s3_download : String → Option Bytes)
    (local_files : List (String × Bytes)) : Option Bytes :=
  let s3res : Option Bytes :=
    match s3_list with
    | none => none
    | some keys => if keys.isEmpty then none else s3_download (maxStr keys)
  match s3res with
  | some d => some d
  | none =>
    if local_files.isEmpty then none
    else
      let latest := maxStr (local_files.map Prod.fst)
      match local_files.find? (fun f => f.1 == latest) with
      | some f => some f.2
      | none => none

end Manager

/-! ### Recovery FSM — `src/orchestration/failover/recovery.py` -/

/-- Mirror of `models.RecoveryState`. -/
inductive RecoveryState
  | RUNNING
  | INTERRUPTION_DETECTED
  | RECONNECTING
  | FAILING_OVER
  | ESCALATING
  | RESOLVED
  | FAILED
deriving DecidableEq, Repr

/-- Mirror of `models.RecoveryContext` (timestamps abstracted to `Nat`). -/
structure RecoveryContext where
  job_id : String
  gpu_id : String
  state : RecoveryState := .RUNNING
  interrupt_type : String := ""
  reconnect_attempts : Nat := 0
  failover_attempted : Bool := false
  resolved_at : Option Nat := none
deriving Repr, DecidableEq

/-- Mirror of the static `GPU_BACKUP_MAP` dict. -/
def GPU_BACKUP_MAP (gpu : String) : Option String :=
  if gpu = "pc1-rtx3090" then some "pc1-rtx3060"
  else if gpu = "pc1-rtx3060" then some "pc1-rtx3090"
  else none

/-- Mirror of `BACKOFF_DELAYS`. -/
def BACKOFF_DELAYS : List Nat := [1, 2, 4, 8, 16]

/-- Mirror of `ESCALATION_TIMEOUT_S`. -/
def ESCALATION_TIMEOUT_S : Nat := 600

/-- Seconds slept between escalation polls (`time.sleep(30)`). -/
def ESCALATION_POLL_INTERVAL_S : Nat := 30

/-- Number of escalation polls the `while monotonic < deadline` loop
performs when each iteration consumes its 30 s sleep: the k-th poll runs at
elapsed 30·k, entered while 30·(k-1) < 600, so 600 / 30 = 20 polls. -/
def escalationMaxPolls : Nat := ESCALATION_TIMEOUT_S / ESCALATION_POLL_INTERVAL_S

/-- External-world outcomes consumed by `handle_interruption`:
`reconnect a` is the result of `_attempt_reconnect` on attempt number `a`
(1-based); `failover_success` the `.success` of `initiate_failover`;
`poll_running k` whether the k-th escalation poll of `GET /jobs/<id>`
observes `status == "running"` (0-based); `now` the wall clock used for
`resolved_at`. -/
structure RecoveryEnv where
  reconnect : Nat → Bool
  failover_success : Bool
  poll_running : Nat → Bool
  now : Nat

/-- First element of `attempts` on which `f` succeeds, in order — the
reconnect `for` loop's early return. -/
def firstSuccess (f : Nat → Bool) : List Nat → Option Nat
  | [] => none
  | a :: rest => if f a then some a else firstSuccess f rest

/-- Index of the first escalation poll (among `n` polls) observing the job
running, mirror of the `while` polling loop's early return. -/
def firstRunningPoll (poll : Nat → Bool) (n : Nat) : Option Nat :=
  (List.range n).find? poll

/-- Escalation phase of `handle_interruption`: sets `failover_attempted`,
transitions to ESCALATING, polls up to `escalationMaxPolls` times; the
first poll observing `running` transitions to RESOLVED (setting
`resolved_at`), expiry of the 600 s window transitions to FAILED. -/
def escalate (env : RecoveryEnv) (ctx : RecoveryContext)
    (trace : List (RecoveryState × RecoveryState)) :
    RecoveryContext × List (RecoveryState × RecoveryState) :=
  let ctx2 := { ctx with failover_attempted := true, state := .ESCALATING }
  let trace2 := trace ++ [(.FAILING_OVER, .ESCALATING)]
  match firstRunningPoll env.poll_running escalationMaxPolls with
  | some _k =>
    ({ ctx2 with state := .RESOLVED, resolved_at := some env.now },
     trace2 ++ [(.ESCALATING, .RESOLVED)])
  | none =>
    ({ ctx2 with state := .FAILED }, trace2 ++ [(.ESCALATING, .FAILED)])

/-- Mirror of `RecoveryOrchestrator.handle_interruption`.  Returns the final
context together with the list of logged state transitions (`from`, `to`).
The code logs RECONNECTING→RUNNING (resp. FAILING_OVER→RUNNING) on a
successful reconnect (resp. failover) and then sets the context state
directly to RESOLVED without logging that last hop. -/
def handle_interruption (env : RecoveryEnv)
    (job_id gpu_id interrupt_type : String) :
    RecoveryContext × List (RecoveryState × RecoveryState) :=
  let ctx0 : RecoveryContext :=
    { job_id := job_id, gpu_id := gpu_id, interrupt_type := interrupt_type }
  let t0 : List (RecoveryState × RecoveryState) :=
    [(.RUNNING, .INTERRUPTION_DETECTED), (.INTERRUPTION_DETECTED, .RECONNECTING)]
  match firstSuccess env.reconnect ((List.range BACKOFF_DELAYS.length).map (· + 1)) with
  | some attempt =>
    ({ ctx0 with state := .RESOLVED, reconnect_attempts := attempt,
                 resolved_at := some env.now },
     t0 ++ [(.RECONNECTING, .RUNNING)])
  | none =>
    let ctx1 := { ctx0 with reconnect_attempts := BACKOFF_DELAYS.length }
    let t1 := t0 ++ [(.RECONNECTING, .FAILING_OVER)]
    match GPU_BACKUP_MAP gpu_id with
    | some _backup =>
      if env.failover_success then
        ({ ctx1 with state := .RESOLVED, resolved_at := some env.now },
         t1 ++ [(.FAILING_OVER, .RUNNING)])
      else escalate env ctx1 t1
    | none => escalate env ctx1 t1

/-! ### Failover controller — `src/orchestration/failover/controller.py` -/

/-- Relevant fields of the MC GPU status JSON used by `initiate_failover`
(`current_job_id` empty = absent/falsy). -/
structure GpuStatus where
  current_job_id : String
  status : String
  ssh_host : String
deriving Repr, DecidableEq

/-- Relevant fields of the MC job progress JSON. -/
structure JobProgress where
  gpu_id : String
  status : String
deriving Repr, DecidableEq

/-- Mirror of `models.FailoverResult` (wall-clock `time_taken_ms` outside
the model). -/
structure FailoverResult where
  success : Bool
  data_integrity_verified : Bool
  failed_gpu : String
  backup_gpu : String
  job_id : String
  checkpoint_used : String := ""
  error : String := ""
deriving Repr, DecidableEq

/-- External-world outcomes consumed by `initiate_failover`:
`gpu_status` the backup's `_get_gpu_status`; `ssh_ok` the `_ssh_check`
probe; `ckpt` the `load_checkpoint(job_id)` result; `relaunch_ok` whether
the relaunch POST returned OK; `progress k` the k-th confirm poll's
`_get_job_progress` (0-based); `notify_ok` whether the tenant notification
POST succeeded (its failure is caught and only logged). -/
structure FailoverEnv where
  gpu_status : Option GpuStatus
  ssh_ok : String → Bool
  ckpt : Option CheckpointRef
  relaunch_ok : Bool
  progress : Nat → Option JobProgress
  notify_ok : Bool

/-- Number of confirm polls (`for _ in range(10)`). -/
def CONFIRM_POLLS : Nat := 10

/-- Whether the k-th confirm poll reports the job on the backup GPU with
status running. -/
def confirmPollOk (env : FailoverEnv) (backup_gpu : String) (k : Nat) : Bool :=
  match env.progress k with
  | some p => p.gpu_id == backup_gpu && p.status == "running"
  | none => false

/-- A failed `FailoverResult`, mirror of the inner `_fail(err)`. -/
def failResult (job_id failed_gpu backup_gpu err : String) : FailoverResult :=
  { success := false, data_integrity_verified := false,
    failed_gpu := failed_gpu, backup_gpu := backup_gpu,
    job_id := job_id, error := err }

/-- Mirror of `initiate_failover(job_id, failed_gpu, backup_gpu)`:
verify backup (status present; not busy; SSH reachable when a host is
given) → load checkpoint (missing one only clears the integrity flag) →
relaunch (non-OK fails) → confirm via up to 10 polls (exhaustion fails) →
best-effort tenant notify (outcome ignored) → success result. -/
def initiate_failover (env : FailoverEnv)
    (job_id failed_gpu backup_gpu : String) : FailoverResult :=
  match env.gpu_status with
  | none => failResult job_id failed_gpu backup_gpu "Backup GPU unreachable"
  | some bs =>
    if bs.current_job_id ≠ "" ∧ bs.status ≠ "idle" then
      failResult job_id failed_gpu backup_gpu "Backup GPU not idle"
    else if bs.ssh_host ≠ "" ∧ env.ssh_ok bs.ssh_host = false then
      failResult job_id failed_gpu backup_gpu "Backup GPU SSH unreachable"
    else
      let ckpt_path := match env.ckpt with | some c => c.nas_path | none => ""
      let integrity_ok := env.ckpt.isSome
      if env.relaunch_ok = false then
        failResult job_id failed_gpu backup_gpu "Relaunch API error"
      else
        match firstRunningPoll (confirmPollOk env backup_gpu) CONFIRM_POLLS with
        | none =>
          failResult job_id failed_gpu backup_gpu "Job not confirmed running on backup"
        | some _ =>
          { success := true, data_integrity_verified := integrity_ok,
            failed_gpu := failed_gpu, backup_gpu := backup_gpu,
            job_id := job_id, checkpoint_used := ckpt_path, error := "" }

/-! ### Network monitor — `src/orchestration/monitoring/network_monitor.py` -/

/-- Mirror of `PingMonitor._calculate_loss_pct`: over the rolling deque of
latency samples (`none` = failed probe), returns 100.0 when the deque is
EMPTY, otherwise `failed / total * 100`. -/
def calculate_loss_pct (latencies : List (Option ℚ)) : ℚ :=
  if latencies.isEmpty then 100
  else ((latencies.countP (fun l => l.isNone) : ℚ) / (latencies.length : ℚ)) * 100

/-- The spec's wording of the rolling-loss computation (§4.6): the same
ratio but 0% on an empty window.  Stated separately for comparison with
the code's `calculate_loss_pct`. -/
def loss_pct_spec (latencies : List (Option ℚ)) : ℚ :=
  if latencies.isEmpty then 0
  else ((latencies.countP (fun l => l.isNone) : ℚ) / (latencies.length : ℚ)) * 100

/-- Monitor state consulted by the `/status` handler. -/
structure PingMonitorState where
  latencies : List (Option ℚ)
  last_latency_ms : ℚ
  consecutive_failures : Nat
  loss_threshold : ℚ
deriving Repr, DecidableEq

/-- Fields of the `/status` JSON produced by `StatusHandler.do_GET`
(`last_outage` is the constant `None` in the source; `uptime_pct_24h`
depends on the metric store and is outside this state). -/
structure StatusJson where
  status : String
  latency_ms : ℚ
  loss_pct : ℚ
deriving Repr, DecidableEq

/-- Mirror of the response construction in `StatusHandler.do_GET`:
`status` is "healthy" when `monitor.consecutive_failures == 0` and
"degraded" otherwise; `loss_pct` is `_calculate_loss_pct()`. -/
def status_response (m : PingMonitorState) : StatusJson :=
  { status := if m.consecutive_failures = 0 then "healthy" else "degraded",
    latency_ms := m.last_latency_ms,
    loss_pct := calculate_loss_pct m.latencies }

/-- The spec's wording of the status derivation (§4.6): degraded iff
`lossPct > lossPctAlert`.  Stated separately for comparison with the
code's `status_response`. -/
def status_spec (m : PingMonitorState) : String :=
  if calculate_loss_pct m.latencies > m.loss_threshold then "degraded" else "healthy"

/-! ### Alert router — `src/orchestration/nexus/alert_router.py` -/

/-- Mirror of `Severity`. -/
inductive Severity
  | LOW
  | MEDIUM
  | HIGH
  | CRITICAL
deriving DecidableEq, Repr

/-- Mirror of `Alert` (uuid/timestamp fields kept as plain strings). -/
structure Alert where
  severity : Severity
  source_agent : String
  title : String
  message : String
  id : String := ""
deriving Repr, DecidableEq

/-- Mirror of `PETER_CHAT_ID`. -/
def PETER_CHAT_ID : String := "7652446182"

/-- Mirror of `GROUP_CHAT_ID`. -/
def GROUP_CHAT_ID : String := "-5275672778"

/-- One outgoing delivery performed by `route`. -/
inductive Dispatch
  | telegram (chat_id : String) (a : Alert)
  | mc_api (a : Alert)
deriving Repr, DecidableEq

/-- Per-key rate cache: `(source_agent, title)` → the `time.time()` of the
last ACCEPTED alert for that key. -/
abbrev RateCache := List ((String × String) × Int)

/-- Lookup in the rate cache (`dict.get`). -/
def cacheGet (cache : RateCache) (k : String × String) : Option Int :=
  match cache with
  | [] => none
  | e :: rest => if e.1 = k then some e.2 else cacheGet rest k

/-- Dict update `cache[key] = now`. -/
def cacheSet (cache : RateCache) (k : String × String) (v : Int) : RateCache :=
  (k, v) :: cache.filter (fun e => e.1 ≠ k)

/-- Mutable router state guarded in `AlertRouter` (`_rate_cache`, `_batch`). -/
structure RouterState where
  rate_cache : RateCache
  batch : List Alert
deriving Repr, DecidableEq

/-- Mirror of `AlertRouter._is_rate_limited`: with `last` the cached time
for the alert's key (defaulting to 0.0), the alert is limited when
`now - last < 600`; only when NOT limited is the cache stamped with `now`.
Returns the flag and the updated cache. -/
def is_rate_limited (cache : RateCache) (now : Int) (alert : Alert) :
    Bool × RateCache :=
  let key := (alert.source_agent, alert.title)
  let last : Int := (cacheGet cache key).getD 0
  if now - last < 600 then (true, cache)
  else (false, cacheSet cache key now)

/-- Mirror of `AlertRouter.route` at time `now`: CRITICAL alerts are sent
immediately to the DM chat, the group chat and the MC API, bypassing the
rate limiter entirely; other severities are dropped when rate-limited,
otherwise LOW is appended to the batch (no immediate dispatch), MEDIUM
goes to the MC API, HIGH to the group chat and the MC API.  Returns the
new state and the dispatches performed. -/
def route (st : RouterState) (now : Int) (a : Alert) :
    RouterState × List Dispatch :=
  match a.severity with
  | .CRITICAL =>
    (st, [.telegram PETER_CHAT_ID a, .telegram GROUP_CHAT_ID a, .mc_api a])
  | sev =>
    let lim := is_rate_limited st.rate_cache now a
    if lim.1 then ({ st with rate_cache := lim.2 }, [])
    else
      let st2 := { st with rate_cache := lim.2 }
      match sev with
      | .LOW => ({ st2 with batch := st2.batch ++ [a] }, [])
      | .MEDIUM => (st2, [.mc_api a])
      | _ => (st2, [.telegram GROUP_CHAT_ID a, .mc_api a])

/-! ### Heartbeat aggregator — `src/orchestration/nexus/heartbeat.py` -/

/-- Mirror of the `AGENTS` registry (name → agent id). -/
def AGENTS : List (String × String) :=
  [("NEXUS", "37c0fd6b"), ("ATLAS", "3149e473"), ("VOLT", "1293aef8"),
   ("GUARDIAN", "3bad1840"), ("SPARK", "4aa8d644"), ("SYNC", "cb6a5cc5")]

/-- Association lookup used for the reverse map. -/
def assocGet (l : List (String × String)) (k : String) : Option String :=
  match l with
  | [] => none
  | e :: rest => if e.1 = k then some e.2 else assocGet rest k

/-- Mirror of `AGENT_ID_TO_NAME` (agent id → name). -/
def AGENT_ID_TO_NAME (aid : String) : Option String :=
  assocGet (AGENTS.map (fun p => (p.2, p.1))) aid

/-- One row of the `heartbeats` table. -/
structure HeartbeatRow where
  id : String
  agent_id : String
  agent_name : String
  message : String
  metadata_json : String
  ts_utc : String
deriving Repr, DecidableEq

/-- Mirror of `HeartbeatAggregator.record_heartbeat`: inserts one row,
attributing unknown agent ids to their raw id
(`AGENT_ID_TO_NAME.get(agent_id, agent_id)`); `uuid` and `ts` stand for
the generated row id and the server-side UTC timestamp. -/
def record_heartbeat (db : List HeartbeatRow)
    (agent_id message metadata_json uuid ts : String) : List HeartbeatRow :=
  let agent_name := (AGENT_ID_TO_NAME agent_id).getD agent_id
  db ++ [⟨uuid, agent_id, agent_name, message, metadata_json, ts⟩]

/-- Request body of `POST /heartbeat` (fields read via `body.get`). -/
structure HeartbeatBody where
  agent_id : Option String
  message : Option String
  metadata : Option String
deriving Repr, DecidableEq

/-- HTTP outcome of the heartbeat POST: status code, the `ok` flag of the
JSON response, and the table after the call. -/
structure HeartbeatPostResult where
  status : Nat
  ok : Bool
  db : List HeartbeatRow
deriving Repr, DecidableEq

/-- Mirror of `handle_heartbeat_post`: a missing/invalid bearer token gives
401 with no insertion; otherwise a row is inserted with
`body.get("agent_id", "")` and `body.get("message", "")`
(`json.dumps(metadata or ...)` giving "\x7b\x7d" for a missing metadata
object) and the response is 200 with `ok = true`. -/
def handle_heartbeat_post (mc_token auth_header : String) (body : HeartbeatBody)
    (db : List HeartbeatRow) (uuid ts : String) : HeartbeatPostResult :=
  if auth_header ≠ "Bearer " ++ mc_token then ⟨401, false, db⟩
  else
    ⟨200, true,
     record_heartbeat db (body.agent_id.getD "") (body.message.getD "")
       (body.metadata.getD "\x7b\x7d") uuid ts⟩

/-! ## Claims -/

/-- C1, counterexample: the claim says that when exactly one medium fails
the save succeeds with that medium marked absent and no error is raised.
In the failover-module `save_checkpoint`, with the NAS write committing
(`.ok`) and only the S3 `put_object` failing, the exception propagates and
no checkpoint result or index entry is produced. -/
theorem c1_counterexample :
    save_checkpoint ⟨fun b => b.sum⟩ "job-42" [0, 1] 1 0 [] .ok .ioError 3
      = .error .s3WriteFailed := rfl

/-- C1, amended: `CheckpointManager.save_checkpoint` succeeds iff at least
one medium's write succeeds (S3 within its three-attempt retry, or the
local atomic write), marks a failed medium `none` in the result, and
raises `CheckpointError` exactly when both fail (no read-back hash is
verified there); the failover-module `save_checkpoint` instead raises on
the FIRST medium failure and commits (appending the index entry) only when
both media pass write plus hash-verified read-back. -/
theorem c1_amended (job_id ts : String) (body : Bytes)
    (s3_attempt : Nat → Option Nat) (local_ok : Bool) (files : List String)
    (h : HashFn) (data : Bytes) (num now keep : Nat) (meta : List MetaEntry)
    (nas s3 : WriteOutcome) :
    ((Manager.save_checkpoint job_id ts body s3_attempt local_ok files).isOk = true
        ↔ (Manager.s3_upload_with_retry s3_attempt).isSome = true ∨ local_ok = true) ∧
    ((∃ e, Manager.save_checkpoint job_id ts body s3_attempt local_ok files = .error e)
        ↔ Manager.s3_upload_with_retry s3_attempt = none ∧ local_ok = false) ∧
    (∀ r fs, Manager.save_checkpoint job_id ts body s3_attempt local_ok files = .ok (r, fs) →
        (r.s3_key.isSome = (Manager.s3_upload_with_retry s3_attempt).isSome ∧
         r.local_path.isSome = local_ok)) ∧
    ((save_checkpoint h job_id data num now meta nas s3 keep).isOk = true
        ↔ nas = .ok ∧ s3 = .ok) := by
  constructor
  · cases hu : Manager.s3_upload_with_retry s3_attempt <;> cases local_ok <;>
      simp [Manager.save_checkpoint, hu, Except.isOk, Except.toBool]
  constructor
  · cases hu : Manager.s3_upload_with_retry s3_attempt <;> cases local_ok <;>
      simp [Manager.save_checkpoint, hu]
  constructor
  · intro r fs hr
    cases hu : Manager.s3_upload_with_retry s3_attempt <;> cases local_ok <;>
      simp [Manager.save_checkpoint, hu] at hr <;> simp [← hr.1, hu]
  · cases nas <;> cases s3 <;>
      simp [save_checkpoint, Except.isOk, Except.toBool]

/-- C1 witness: at concrete inputs, a manager save with S3 failing but the
local write succeeding returns a result, and a failover save with both
media committing returns a result. -/
theorem c1_amended_witness :
    (Manager.save_checkpoint "j" "t" [0] (fun _ => none) true []).isOk = true ∧
    (save_checkpoint ⟨fun b => b.sum⟩ "j" [0] 1 0 [] .ok .ok 3).isOk = true :=
  ⟨(c1_amended "j" "t" [0] (fun _ => none) true [] ⟨fun b => b.sum⟩ [0] 1 0 3 []
      .ok .ok).1.mpr (Or.inr rfl),
   (c1_amended "j" "t" [0] (fun _ => none) true [] ⟨fun b => b.sum⟩ [0] 1 0 3 []
      .ok .ok).2.2.2.mpr ⟨rfl, rfl⟩⟩

/-- C2, counterexample: the claim says every checkpoint load tries the
local medium first.  `CheckpointManager.load_checkpoint` tries S3 FIRST:
with a valid local copy `[1, 2]` present, it returns the remote bytes
`[3, 4]`. -/
theorem c2_counterexample :
    Manager.load_checkpoint (some ["checkpoints/j/b.json"]) (fun _ => some [3, 4])
        [("a.json", [1, 2])] = some [3, 4] ∧ ([3, 4] : Bytes) ≠ [1, 2] :=
  ⟨rfl, by decide⟩

/-- C2, amended: the failover-module `load_checkpoint` behaves as claimed —
local first (returning without consulting S3 when the local hash matches),
S3 fallback with self-heal rewriting the local copy from the verified
remote bytes, and `none` when neither medium yields a matching copy —
while `CheckpointManager.load_checkpoint` tries S3 first and falls back to
local, without hash verification or self-heal. -/
theorem c2_amended (h : HashFn) (job_id : String) (meta : List MetaEntry)
    (entry : MetaEntry) (nasRead s3Read : String → Option Bytes)
    (hlast : meta.getLast? = some entry) :
    (∀ d, nasRead entry.nas_path = some d → h.hash d = entry.checksum →
       load_checkpoint h job_id none meta nasRead s3Read
         = (some (refOfEntry job_id entry), none)) ∧
    ((∀ d, nasRead entry.nas_path = some d → h.hash d ≠ entry.checksum) →
       ∀ d, s3Read entry.s3_key = some d → h.hash d = entry.checksum →
       load_checkpoint h job_id none meta nasRead s3Read
         = (some (refOfEntry job_id entry), some (entry.nas_path, d))) ∧
    ((∀ d, nasRead entry.nas_path = some d → h.hash d ≠ entry.checksum) →
       (∀ d, s3Read entry.s3_key = some d → h.hash d ≠ entry.checksum) →
       load_checkpoint h job_id none meta nasRead s3Read = (none, none)) ∧
    (∀ keys dl lf d, keys ≠ [] → dl (Manager.maxStr keys) = some d →
       Manager.load_checkpoint (some keys) dl lf = some d) := by
  have hne : meta ≠ [] := by
    intro e; rw [e] at hlast; simp at hlast
  have hempty : meta.isEmpty = false := by
    cases meta with
    | nil => exact absurd rfl hne
    | cons a as => rfl
  refine ⟨?_, ?_, ?_, ?_⟩
  · intro d hd hh
    simp [load_checkpoint, hempty, hlast, hd, hh]
  · intro hnas d hd hh
    cases hn : nasRead entry.nas_path with
    | none => simp [load_checkpoint, hempty, hlast, hn, hd, hh]
    | some d0 =>
      have : h.hash d0 ≠ entry.checksum := hnas d0 hn
      simp [load_checkpoint, hempty, hlast, hn, this, hd, hh]
  · intro hnas hs3
    cases hn : nasRead entry.nas_path with
    | none =>
      cases hs : s3Read entry.s3_key with
      | none => simp [load_checkpoint, hempty, hlast, hn, hs]
      | some d1 =>
        have : h.hash d1 ≠ entry.checksum := hs3 d1 hs
        simp [load_checkpoint, hempty, hlast, hn, hs, this]
    | some d0 =>
      have h0 : h.hash d0 ≠ entry.checksum := hnas d0 hn
      cases hs : s3Read entry.s3_key with
      | none => simp [load_checkpoint, hempty, hlast, hn, h0, hs]
      | some d1 =>
        have h1 : h.hash d1 ≠ entry.checksum := hs3 d1 hs
        simp [load_checkpoint, hempty, hlast, hn, h0, hs, h1]
  · intro keys dl lf d hk hd
    have hkeys : keys.isEmpty = false := by
      cases keys with
      | nil => exact absurd rfl hk
      | cons a as => rfl
    simp [Manager.load_checkpoint, hkeys, hd]

/-- C2 witness: at a concrete meta index and stores, a valid local copy is
returned with no self-heal write. -/
theorem c2_amended_witness :
    load_checkpoint ⟨fun b => b.sum⟩ "j" none [⟨1, 3, "p", "k", 2, 0⟩]
        (fun _ => some [1, 2]) (fun _ => none)
      = (some (refOfEntry "j" ⟨1, 3, "p", "k", 2, 0⟩), none) :=
  (c2_amended ⟨fun b => b.sum⟩ "j" [⟨1, 3, "p", "k", 2, 0⟩] ⟨1, 3, "p", "k", 2, 0⟩
      (fun _ => some [1, 2]) (fun _ => none) rfl).1 [1, 2] rfl rfl

/-- Helper: with every reconnect attempt 1..5 failing, the reconnect loop
finds no success. -/
theorem firstSuccess_none (f : Nat → Bool)
    (hrec : ∀ a, 1 ≤ a → a ≤ 5 → f a = false) :
    firstSuccess f ((List.range BACKOFF_DELAYS.length).map (· + 1)) = none := by
  have hl : (List.range BACKOFF_DELAYS.length).map (· + 1) = [1, 2, 3, 4, 5] := by decide
  rw [hl]
  simp [firstSuccess,
    hrec 1 (by norm_num) (by norm_num), hrec 2 (by norm_num) (by norm_num),
    hrec 3 (by norm_num) (by norm_num), hrec 4 (by norm_num) (by norm_num),
    hrec 5 (by norm_num) (by norm_num)]

/-- Helper: behavior of the escalation phase — ESCALATING is entered and
logged; a poll observing the job running within the window resolves the
context, window expiry fails it leaving `resolved_at` untouched. -/
theorem escalate_cases (env : RecoveryEnv) (ctx : RecoveryContext)
    (trace : List (RecoveryState × RecoveryState)) :
    (RecoveryState.FAILING_OVER, RecoveryState.ESCALATING) ∈ (escalate env ctx trace).2 ∧
    ((∃ k, k < escalationMaxPolls ∧ env.poll_running k = true) →
        (escalate env ctx trace).1.state = .RESOLVED) ∧
    ((∀ k, k < escalationMaxPolls → env.poll_running k = false) →
        (escalate env ctx trace).1.state = .FAILED ∧
        (escalate env ctx trace).1.resolved_at = ctx.resolved_at) := by
  refine ⟨?_, ?_, ?_⟩
  · cases hp : firstRunningPoll env.poll_running escalationMaxPolls <;>
      simp [escalate, hp]
  · rintro ⟨k, hk, hpk⟩
    have : (firstRunningPoll env.poll_running escalationMaxPolls).isSome := by
      rw [firstRunningPoll, List.find?_isSome]
      exact ⟨k, List.mem_range.mpr hk, hpk⟩
    cases hp : firstRunningPoll env.poll_running escalationMaxPolls with
    | none => rw [hp] at this; simp at this
    | some k0 => simp [escalate, hp]
  · intro hall
    have hp : firstRunningPoll env.poll_running escalationMaxPolls = none := by
      rw [firstRunningPoll, List.find?_eq_none]
      intro k hk
      simp [hall k (List.mem_range.mp hk)]
    simp [escalate, hp]

/-- C3: when all five reconnect probes fail and either no backup is
configured for the GPU or the failover attempt is unsuccessful, the
context transitions to ESCALATING; the escalation window is polled
600 / 30 = 20 times, a poll observing `status = running` resolves the
context, and window expiry fails it with `resolved_at` still nil. -/
theorem c3_escalation (env : RecoveryEnv) (job_id gpu_id it : String)
    (hrec : ∀ a, 1 ≤ a → a ≤ 5 → env.reconnect a = false)
    (hfail : GPU_BACKUP_MAP gpu_id = none ∨ env.failover_success = false) :
    (RecoveryState.FAILING_OVER, RecoveryState.ESCALATING) ∈
        (handle_interruption env job_id gpu_id it).2 ∧
    ((∃ k, k < escalationMaxPolls ∧ env.poll_running k = true) →
        (handle_interruption env job_id gpu_id it).1.state = .RESOLVED) ∧
    ((∀ k, k < escalationMaxPolls → env.poll_running k = false) →
        (handle_interruption env job_id gpu_id it).1.state = .FAILED ∧
        (handle_interruption env job_id gpu_id it).1.resolved_at = none) ∧
    escalationMaxPolls = ESCALATION_TIMEOUT_S / ESCALATION_POLL_INTERVAL_S ∧
    escalationMaxPolls = 20 := by
  have hfs := firstSuccess_none env.reconnect hrec
  have hesc :
      handle_interruption env job_id gpu_id it
        = escalate env
            { job_id := job_id, gpu_id := gpu_id, interrupt_type := it,
              reconnect_attempts := BACKOFF_DELAYS.length }
            [(.RUNNING, .INTERRUPTION_DETECTED), (.INTERRUPTION_DETECTED, .RECONNECTING),
             (.RECONNECTING, .FAILING_OVER)] := by
    rcases hfail with hb | hf
    · simp [handle_interruption, hfs, hb]
    · cases hb : GPU_BACKUP_MAP gpu_id <;>
        simp [handle_interruption, hfs, hb, hf]
  rw [hesc]
  have h := escalate_cases env
    { job_id := job_id, gpu_id := gpu_id, interrupt_type := it,
      reconnect_attempts := BACKOFF_DELAYS.length }
    [(.RUNNING, .INTERRUPTION_DETECTED), (.INTERRUPTION_DETECTED, .RECONNECTING),
     (.RECONNECTING, .FAILING_OVER)]
  exact ⟨h.1, h.2.1, fun hall => h.2.2 hall, rfl, rfl⟩

/-- C3 witness: every probe failing, no backup configured for the GPU, and
no poll observing the job running gives a FAILED context with
`resolved_at` nil. -/
theorem c3_witness :
    (handle_interruption ⟨fun _ => false, false, fun _ => false, 7⟩ "j" "gpu-x" "THERMAL").1.state
      = .FAILED ∧
    (handle_interruption ⟨fun _ => false, false, fun _ => false, 7⟩ "j" "gpu-x" "THERMAL").1.resolved_at
      = none :=
  (c3_escalation ⟨fun _ => false, false, fun _ => false, 7⟩ "j" "gpu-x" "THERMAL"
      (fun _ _ _ => rfl) (Or.inl rfl)).2.2.1 (fun _ _ => rfl)

/-- C4: once the failover procedure reaches the confirm step (backup
verified, relaunch accepted), the result succeeds iff one of the 10
confirm polls reports the job on the backup GPU with status running;
exhaustion yields the failed result with the job-not-running reason; and
the tenant-notification outcome never changes the result. -/
theorem c4_confirm (env : FailoverEnv) (bs : GpuStatus)
    (job_id failed_gpu backup_gpu : String)
    (hstat : env.gpu_status = some bs)
    (hidle : bs.current_job_id = "" ∨ bs.status = "idle")
    (hssh : bs.ssh_host = "" ∨ env.ssh_ok bs.ssh_host = true)
    (hrel : env.relaunch_ok = true) :
    ((initiate_failover env job_id failed_gpu backup_gpu).success = true
        ↔ ∃ k, k < CONFIRM_POLLS ∧ confirmPollOk env backup_gpu k = true) ∧
    ((∀ k, k < CONFIRM_POLLS → confirmPollOk env backup_gpu k = false) →
        initiate_failover env job_id failed_gpu backup_gpu
          = failResult job_id failed_gpu backup_gpu "Job not confirmed running on backup") ∧
    (∀ b : Bool,
        initiate_failover { env with notify_ok := b } job_id failed_gpu backup_gpu
          = initiate_failover env job_id failed_gpu backup_gpu) := by
  have hbusy : ¬(bs.current_job_id ≠ "" ∧ bs.status ≠ "idle") := by
    rcases hidle with h | h <;> simp [h]
  have hsshok : ¬(bs.ssh_host ≠ "" ∧ env.ssh_ok bs.ssh_host = false) := by
    rcases hssh with h | h <;> simp [h]
  refine ⟨?_, ?_, ?_⟩
  · cases hp : firstRunningPoll (confirmPollOk env backup_gpu) CONFIRM_POLLS with
    | none =>
      have : ∀ k ∈ List.range CONFIRM_POLLS, ¬(confirmPollOk env backup_gpu k = true) := by
        rw [firstRunningPoll, List.find?_eq_none] at hp
        exact hp
      simp only [initiate_failover, hstat, hbusy, hsshok, hrel, hp,
        if_neg hbusy, if_neg hsshok]
      simp [failResult]
      intro k hk
      exact Bool.eq_false_iff.mpr (this k (List.mem_range.mpr hk))
    | some k0 =>
      have hmem := List.find?_some (p := confirmPollOk env backup_gpu) (by
        rw [firstRunningPoll] at hp; exact hp)
      have hk0 : k0 ∈ List.range CONFIRM_POLLS :=
        List.mem_of_find?_eq_some (by rw [firstRunningPoll] at hp; exact hp)
      simp only [initiate_failover, hstat, if_neg hbusy, if_neg hsshok, hrel]
      simp [hp]
      exact ⟨k0, List.mem_range.mp hk0, hmem⟩
  · intro hall
    have hp : firstRunningPoll (confirmPollOk env backup_gpu) CONFIRM_POLLS = none := by
      rw [firstRunningPoll, List.find?_eq_none]
      intro k hk
      simp [hall k (List.mem_range.mp hk)]
    simp [initiate_failover, hstat, if_neg hbusy, if_neg hsshok, hrel, hp]
  · intro b
    cases env
    rfl

/-- C4 witness: with a healthy idle backup, a successful relaunch, and the
fourth poll reporting the job running on the backup, the failover result
is successful. -/
theorem c4_witness :
    (initiate_failover
        ⟨some ⟨"", "idle", "h1"⟩, fun _ => true, none, true,
         fun k => if k ≥ 3 then some ⟨"gpu-B", "running"⟩ else none, true⟩
        "j" "gpu-A" "gpu-B").success = true :=
  (c4_confirm
      ⟨some ⟨"", "idle", "h1"⟩, fun _ => true, none, true,
       fun k => if k ≥ 3 then some ⟨"gpu-B", "running"⟩ else none, true⟩
      ⟨"", "idle", "h1"⟩ "j" "gpu-A" "gpu-B" rfl (Or.inl rfl) (Or.inr rfl) rfl).1.mpr
    ⟨3, by decide, by decide⟩

/-- C5, counterexample: the claim (and the spec) say an empty rolling
window yields 0%; `_calculate_loss_pct` returns 100.0 on an empty deque
(and the module's own test asserts 100.0). -/
theorem c5_counterexample :
    calculate_loss_pct [] = 100 ∧ loss_pct_spec [] = 0 ∧ (100 : ℚ) ≠ 0 :=
  ⟨by norm_num [calculate_loss_pct], by norm_num [loss_pct_spec], by norm_num⟩

/-- C5, amended: the rolling-loss computation returns
`(failedCount / totalCount) × 100` over the samples in the rolling window,
and for an EMPTY window it returns 100% (not 0%). -/
theorem c5_amended (latencies : List (Option ℚ)) :
    (latencies = [] → calculate_loss_pct latencies = 100) ∧
    (latencies ≠ [] →
      calculate_loss_pct latencies
        = ((latencies.countP (fun l => l.isNone) : ℚ) / (latencies.length : ℚ)) * 100 ∧
      calculate_loss_pct latencies = loss_pct_spec latencies) := by
  constructor
  · intro he
    simp [he, calculate_loss_pct]
  · intro hne
    have hempty : latencies.isEmpty = false := by
      cases latencies with
      | nil => exact absurd rfl hne
      | cons a as => rfl
    constructor
    · simp [calculate_loss_pct, hempty]
    · simp [calculate_loss_pct, loss_pct_spec, hempty]

/-- C5 witness: a window of two samples with one failure computes to the
ratio formula, i.e. 50%. -/
theorem c5_amended_witness :
    calculate_loss_pct [none, some (10 : ℚ)]
      = ((([none, some (10 : ℚ)].countP (fun l => l.isNone)) : ℚ)
          / (([none, some (10 : ℚ)].length : Nat) : ℚ)) * 100 :=
  ((c5_amended [none, some (10 : ℚ)]).2 (by simp)).1

/-- C6, counterexample: a reachable monitor state (an older failed sample
in the window, latest probe successful so `consecutive_failures = 0`) has
rolling loss 50% > the 5% alert threshold, yet the `/status` JSON reports
"healthy"; the spec's derivation says "degraded". -/
theorem c6_counterexample :
    (status_response ⟨[none, some 10], 10, 0, 5⟩).status = "healthy" ∧
    calculate_loss_pct [none, some 10] > 5 ∧
    status_spec ⟨[none, some 10], 10, 0, 5⟩ = "degraded" :=
  ⟨by decide,
   by norm_num [calculate_loss_pct, List.countP, List.countP.go],
   by norm_num [status_spec, calculate_loss_pct, List.countP, List.countP.go]⟩

/-- C6, amended: the `/status` endpoint reports "degraded" iff
`consecutive_failures ≠ 0` (the most recent probe cycle failed), not iff
the rolling loss exceeds the alert threshold; the reported `loss_pct`
field is still the rolling-window computation. -/
theorem c6_amended (m : PingMonitorState) :
    ((status_response m).status = "degraded" ↔ m.consecutive_failures ≠ 0) ∧
    ((status_response m).status = "healthy" ↔ m.consecutive_failures = 0) ∧
    (status_response m).loss_pct = calculate_loss_pct m.latencies := by
  by_cases hc : m.consecutive_failures = 0 <;>
    simp [status_response, hc]

/-- C7: CRITICAL alerts bypass the rate limiter — two identical
`(sourceAgent, title)` CRITICAL alerts within 600 s each produce a full
dispatch to the DM chat, the group chat and the MC API, and routing a
CRITICAL alert leaves the router state (rate cache, batch) untouched. -/
theorem c7_critical_bypass (st : RouterState) (now1 now2 : Int) (a1 a2 : Alert)
    (h1 : a1.severity = .CRITICAL) (h2 : a2.severity = .CRITICAL)
    (hsrc : a2.source_agent = a1.source_agent) (htit : a2.title = a1.title)
    (hwin : now2 - now1 < 600) :
    (route st now1 a1).2
      = [.telegram PETER_CHAT_ID a1, .telegram GROUP_CHAT_ID a1, .mc_api a1] ∧
    (route (route st now1 a1).1 now2 a2).2
      = [.telegram PETER_CHAT_ID a2, .telegram GROUP_CHAT_ID a2, .mc_api a2] ∧
    (route st now1 a1).1 = st := by
  obtain ⟨s1, src1, t1, m1, i1⟩ := a1
  obtain ⟨s2, src2, t2, m2, i2⟩ := a2
  simp only [Alert.severity] at h1 h2
  subst h1; subst h2
  exact ⟨rfl, rfl, rfl⟩

/-- C7 witness: two concrete identical CRITICAL alerts 100 s apart are both
dispatched in full. -/
theorem c7_witness :
    (route ⟨[], []⟩ 1000 ⟨.CRITICAL, "VOLT", "down", "m", ""⟩).2
      = [.telegram PETER_CHAT_ID ⟨.CRITICAL, "VOLT", "down", "m", ""⟩,
         .telegram GROUP_CHAT_ID ⟨.CRITICAL, "VOLT", "down", "m", ""⟩,
         .mc_api ⟨.CRITICAL, "VOLT", "down", "m", ""⟩] ∧
    (route (route ⟨[], []⟩ 1000 ⟨.CRITICAL, "VOLT", "down", "m", ""⟩).1 1100
        ⟨.CRITICAL, "VOLT", "down", "m", ""⟩).2
      = [.telegram PETER_CHAT_ID ⟨.CRITICAL, "VOLT", "down", "m", ""⟩,
         .telegram GROUP_CHAT_ID ⟨.CRITICAL, "VOLT", "down", "m", ""⟩,
         .mc_api ⟨.CRITICAL, "VOLT", "down", "m", ""⟩] :=
  ⟨(c7_critical_bypass ⟨[], []⟩ 1000 1100 ⟨.CRITICAL, "VOLT", "down", "m", ""⟩
      ⟨.CRITICAL, "VOLT", "down", "m", ""⟩ rfl rfl rfl rfl (by norm_num)).1,
   (c7_critical_bypass ⟨[], []⟩ 1000 1100 ⟨.CRITICAL, "VOLT", "down", "m", ""⟩
      ⟨.CRITICAL, "VOLT", "down", "m", ""⟩ rfl rfl rfl rfl (by norm_num)).2.1⟩

/-- Helper: looking up the key just stamped in the rate cache returns the
stamp. -/
theorem cacheGet_cacheSet (c : RateCache) (k : String × String) (v : Int) :
    cacheGet (cacheSet c k v) k = some v := by
  simp [cacheGet, cacheSet]

/-- C8: for non-CRITICAL severities, two alerts with the same
`(sourceAgent, title)` key within 600 s produce exactly one accepted
delivery: the first is dispatched (or, for LOW, batched), the second is
dropped without being queued and without touching the router state, and
the cooldown stamp for the key stays at the first (last accepted) alert's
timestamp. -/
theorem c8_rate_limit (st : RouterState) (now1 now2 : Int) (a1 a2 : Alert)
    (h1 : a1.severity ≠ .CRITICAL) (h2 : a2.severity ≠ .CRITICAL)
    (hsrc : a2.source_agent = a1.source_agent) (htit : a2.title = a1.title)
    (hfresh : 600 ≤ now1 - ((cacheGet st.rate_cache (a1.source_agent, a1.title)).getD 0))
    (hwin : now2 - now1 < 600) :
    (route (route st now1 a1).1 now2 a2).2 = [] ∧
    (route (route st now1 a1).1 now2 a2).1 = (route st now1 a1).1 ∧
    cacheGet (route st now1 a1).1.rate_cache (a1.source_agent, a1.title) = some now1 ∧
    (a1.severity = .LOW →
        (route st now1 a1).1.batch = st.batch ++ [a1] ∧ (route st now1 a1).2 = []) ∧
    (a1.severity = .MEDIUM →
        (route st now1 a1).2 = [.mc_api a1] ∧ (route st now1 a1).1.batch = st.batch) ∧
    (a1.severity = .HIGH →
        (route st now1 a1).2 = [.telegram GROUP_CHAT_ID a1, .mc_api a1] ∧
        (route st now1 a1).1.batch = st.batch) := by
  have hnl : ¬(now1 - ((cacheGet st.rate_cache (a1.source_agent, a1.title)).getD 0) < 600) :=
    not_lt.mpr hfresh
  have hlim1 : is_rate_limited st.rate_cache now1 a1
      = (false, cacheSet st.rate_cache (a1.source_agent, a1.title) now1) := by
    simp [is_rate_limited, hnl]
  have hcache : ∀ st1 : RouterState,
      st1.rate_cache = cacheSet st.rate_cache (a1.source_agent, a1.title) now1 →
      route st1 now2 a2 = (st1, []) := by
    intro st1 hrc
    have hget : cacheGet st1.rate_cache (a2.source_agent, a2.title) = some now1 := by
      rw [hrc, hsrc, htit]
      exact cacheGet_cacheSet _ _ _
    have hlim2 : is_rate_limited st1.rate_cache now2 a2 = (true, st1.rate_cache) := by
      simp [is_rate_limited, hget, hwin]
    obtain ⟨s2, src2, t2, m2, i2⟩ := a2
    cases s2 with
    | CRITICAL => exact absurd rfl h2
    | LOW => simp [route, hlim2]
    | MEDIUM => simp [route, hlim2]
    | HIGH => simp [route, hlim2]
  obtain ⟨s1, src1, t1, m1, i1⟩ := a1
  cases s1 with
  | CRITICAL => exact absurd rfl h1
  | LOW =>
    have hr1 : route ⟨st.rate_cache, st.batch⟩ now1 ⟨.LOW, src1, t1, m1, i1⟩
        = (⟨cacheSet st.rate_cache (src1, t1) now1, st.batch ++ [⟨.LOW, src1, t1, m1, i1⟩]⟩, []) := by
      simp only [route] at hlim1 ⊢
      simp [hlim1]
    simp only [hr1]
    refine ⟨?_, ?_, ?_, ?_, ?_, ?_⟩
    · rw [hcache _ rfl]
    · rw [hcache _ rfl]
    · exact cacheGet_cacheSet _ _ _
    · intro; constructor <;> simp
    · intro h; exact absurd h (by simp)
    · intro h; exact absurd h (by simp)
  | MEDIUM =>
    have hr1 : route ⟨st.rate_cache, st.batch⟩ now1 ⟨.MEDIUM, src1, t1, m1, i1⟩
        = (⟨cacheSet st.rate_cache (src1, t1) now1, st.batch⟩,
           [.mc_api ⟨.MEDIUM, src1, t1, m1, i1⟩]) := by
      simp only [route] at hlim1 ⊢
      simp [hlim1]
    simp only [hr1]
    refine ⟨?_, ?_, ?_, ?_, ?_, ?_⟩
    · rw [hcache _ rfl]
    · rw [hcache _ rfl]
    · exact cacheGet_cacheSet _ _ _
    · intro h; exact absurd h (by simp)
    · intro; constructor <;> simp
    · intro h; exact absurd h (by simp)
  | HIGH =>
    have hr1 : route ⟨st.rate_cache, st.batch⟩ now1 ⟨.HIGH, src1, t1, m1, i1⟩
        = (⟨cacheSet st.rate_cache (src1, t1) now1, st.batch⟩,
           [.telegram GROUP_CHAT_ID ⟨.HIGH, src1, t1, m1, i1⟩,
            .mc_api ⟨.HIGH, src1, t1, m1, i1⟩]) := by
      simp only [route] at hlim1 ⊢
      simp [hlim1]
    simp only [hr1]
    refine ⟨?_, ?_, ?_, ?_, ?_, ?_⟩
    · rw [hcache _ rfl]
    · rw [hcache _ rfl]
    · exact cacheGet_cacheSet _ _ _
    · intro h; exact absurd h (by simp)
    · intro h; exact absurd h (by simp)
    · intro; constructor <;> simp

/-- C8 witness: two identical HIGH alerts 100 s apart — the second is
dropped and the router state is unchanged by it. -/
theorem c8_witness :
    (route (route ⟨[], []⟩ 1000 ⟨.HIGH, "VOLT", "loss", "m", ""⟩).1 1100
        ⟨.HIGH, "VOLT", "loss", "m", ""⟩).2 = [] ∧
    (route (route ⟨[], []⟩ 1000 ⟨.HIGH, "VOLT", "loss", "m", ""⟩).1 1100
        ⟨.HIGH, "VOLT", "loss", "m", ""⟩).1
      = (route ⟨[], []⟩ 1000 ⟨.HIGH, "VOLT", "loss", "m", ""⟩).1 :=
  ⟨(c8_rate_limit ⟨[], []⟩ 1000 1100 ⟨.HIGH, "VOLT", "loss", "m", ""⟩
      ⟨.HIGH, "VOLT", "loss", "m", ""⟩ (by simp) (by simp) rfl rfl
      (by norm_num [cacheGet]) (by norm_num)).1,
   (c8_rate_limit ⟨[], []⟩ 1000 1100 ⟨.HIGH, "VOLT", "loss", "m", ""⟩
      ⟨.HIGH, "VOLT", "loss", "m", ""⟩ (by simp) (by simp) rfl rfl
      (by norm_num [cacheGet]) (by norm_num)).2.1⟩

/-- Local file listing after a manager save (empty on error), used to chain
consecutive saves. -/
def Manager.filesAfter (r : Except String (Manager.CheckpointResult × List String)) :
    List String :=
  match r with
  | .ok (_, fs) => fs
  | .error _ => []

/-- C9, counterexample: the claim says retention pruning runs after EVERY
successful save, leaving at most `keepN` entries.  Four consecutive
successful `CheckpointManager.save_checkpoint` calls leave four local
checkpoint files — that manager never prunes — exceeding the configured
keep count of 3. -/
theorem c9_counterexample :
    Manager.filesAfter
        (Manager.save_checkpoint "j" "t4" [0] (fun _ => some 1) true
          (Manager.filesAfter
            (Manager.save_checkpoint "j" "t3" [0] (fun _ => some 1) true
              (Manager.filesAfter
                (Manager.save_checkpoint "j" "t2" [0] (fun _ => some 1) true
                  (Manager.filesAfter
                    (Manager.save_checkpoint "j" "t1" [0] (fun _ => some 1) true [])))))))
      = ["t1.json", "t2.json", "t3.json", "t4.json"] ∧ ¬(4 ≤ 3) :=
  ⟨rfl, by decide⟩

/-- C9, amended: in the failover checkpoint module, pruning runs after
every successful save and (for a positive keep count) leaves exactly the
most recent `keep_n` index entries — a suffix of the index, never deleting
anything while `keep_n` or fewer entries exist; `CheckpointManager`
performs no retention pruning at all. -/
theorem c9_amended (meta : List MetaEntry) (keep_n : Nat) (hk : 0 < keep_n) :
    delete_old_checkpoints meta keep_n = meta.drop (meta.length - keep_n) ∧
    (delete_old_checkpoints meta keep_n).length = min meta.length keep_n ∧
    (meta.length ≤ keep_n → delete_old_checkpoints meta keep_n = meta) ∧
    (delete_old_checkpoints meta keep_n) <:+ meta ∧
    (∀ hf job data num now ref meta2,
        save_checkpoint hf job data num now meta .ok .ok keep_n = .ok (ref, meta2) →
        meta2 = delete_old_checkpoints
          (meta ++ [⟨num, hf.hash data, nas_file_of job num,
                     s3_key_of job num, data.length, now⟩]) keep_n) := by
  have hdrop : delete_old_checkpoints meta keep_n = meta.drop (meta.length - keep_n) := by
    by_cases hle : meta.length ≤ keep_n
    · simp [delete_old_checkpoints, hle, Nat.sub_eq_zero_of_le hle]
    · simp [delete_old_checkpoints, hle, pyTail, Nat.pos_iff_ne_zero.mp hk]
  refine ⟨hdrop, ?_, ?_, ?_, ?_⟩
  · rw [hdrop, List.length_drop]
    omega
  · intro hle
    simp [delete_old_checkpoints, hle]
  · rw [hdrop]
    exact ⟨meta.take (meta.length - keep_n), List.take_append_drop _ meta⟩
  · intro hf job data num now ref meta2 hsave
    simp [save_checkpoint] at hsave
    exact hsave.2.symm

/-- C9 witness: pruning a four-entry index with keep count 3 leaves the
last three entries, an index at the keep count is untouched, and a
successful save commits the pruned index. -/
theorem c9_amended_witness :
    delete_old_checkpoints
        [⟨1, 0, "", "", 0, 0⟩, ⟨2, 0, "", "", 0, 0⟩, ⟨3, 0, "", "", 0, 0⟩,
         ⟨4, 0, "", "", 0, 0⟩] 3
      = [⟨2, 0, "", "", 0, 0⟩, ⟨3, 0, "", "", 0, 0⟩, ⟨4, 0, "", "", 0, 0⟩] ∧
    delete_old_checkpoints
        [⟨1, 0, "", "", 0, 0⟩, ⟨2, 0, "", "", 0, 0⟩, ⟨3, 0, "", "", 0, 0⟩] 3
      = [⟨1, 0, "", "", 0, 0⟩, ⟨2, 0, "", "", 0, 0⟩, ⟨3, 0, "", "", 0, 0⟩] :=
  ⟨by rw [(c9_amended
      [⟨1, 0, "", "", 0, 0⟩, ⟨2, 0, "", "", 0, 0⟩, ⟨3, 0, "", "", 0, 0⟩,
       ⟨4, 0, "", "", 0, 0⟩] 3 (by decide)).1]; decide,
   (c9_amended
      [⟨1, 0, "", "", 0, 0⟩, ⟨2, 0, "", "", 0, 0⟩, ⟨3, 0, "", "", 0, 0⟩] 3
      (by decide)).2.2.1 (by decide)⟩

/-- C10: an authenticated heartbeat POST whose body lacks `agent_id` is
accepted: a record is inserted with `agent_id = ""` (and, `""` being
unknown to the registry, attributed to that raw id as its name), and the
response is `200 {ok: true}` — the code resolves the protocol open
question as treat-missing-as-empty rather than 400. -/
theorem c10_missing_agent_id (mc_token : String) (body : HeartbeatBody)
    (db : List HeartbeatRow) (uuid ts : String)
    (hagent : body.agent_id = none) :
    handle_heartbeat_post mc_token ("Bearer " ++ mc_token) body db uuid ts
      = ⟨200, true,
         db ++ [⟨uuid, "", "", body.message.getD "", body.metadata.getD "\x7b\x7d", ts⟩]⟩ ∧
    AGENT_ID_TO_NAME "" = none := by
  constructor
  · simp [handle_heartbeat_post, record_heartbeat, hagent]
    decide
  · decide

/-- C10 witness: a concrete authenticated POST with an empty body inserts
the empty-id row and returns 200. -/
theorem c10_witness :
    handle_heartbeat_post "tok" ("Bearer " ++ "tok") ⟨none, none, none⟩ [] "u1" "t1"
      = ⟨200, true, [⟨"u1", "", "", "", "\x7b\x7d", "t1"⟩]⟩ :=
  (c10_missing_agent_id "tok" ⟨none, none, none⟩ [] "u1" "t1" rfl).1

end DC1
